import Mathlib

/-!
Shallow embedding of the workflow editor
(`src/apps/workflow_app/static/workflow_app/js/workflow-editor.js`).

The editor is a single class holding an in-memory graph (a `Map` of nodes
and a `Map` of connections), a nullable workflow object, selection state,
dirty/loading flags and canvas drag state.  DOM reads (form field values,
the CSRF meta tag, the mouse-event target) are modelled as explicit
inputs; DOM writes, `fetch` requests, notifications and
`history.replaceState` calls are modelled as explicit outputs.  The
outcome of an asynchronous `fetch` (network error, non-JSON body, HTTP
status, parsed result) is passed in as data, so each async action becomes
a pure function from (state, page, outcome) to (state, effects).
-/

/-- JS truthiness of a nullable numeric id (`workflowId`, `result.id`):
`null`/`undefined` and `0` are falsy, every other number is truthy. -/
def jsTruthy : Option Nat → Bool
  | none => false
  | some n => n != 0

/-- JS `a || d` for a nullable string `a`: `null`/`undefined` and the empty
string fall back to the default `d`. -/
def jsOrDefault : Option String → String → String
  | none, d => d
  | some s, d => if s = "" then d else s

/-- Template-literal rendering of a nullable id: `null` prints as "null". -/
def idInterp : Option Nat → String
  | none => "null"
  | some n => toString n

/-- Rendering of a rational coordinate inside a template literal.  The JS
code interpolates numbers; coordinates are modelled exactly as rationals
and printed as integer or `num/den`. -/
def ratStr (q : ℚ) : String :=
  if q.den = 1 then toString q.num else toString q.num ++ "/" ++ toString q.den

/-- A 2D point (node position, handle position). -/
structure Pos where
  x : ℚ
  y : ℚ
deriving DecidableEq

/-- `Map.get`: the value stored under key `k`, if any. -/
def mapGet {α : Type} (m : List (String × α)) (k : String) : Option α :=
  (m.find? (fun p => p.1 == k)).map (fun p => p.2)

/-- `Map.set`: replace the value of an existing key in place, otherwise
append a new entry (JS `Map` preserves insertion order). -/
def mapSet {α : Type} (m : List (String × α)) (k : String) (v : α) : List (String × α) :=
  if m.any (fun p => p.1 == k) then
    m.map (fun p => if p.1 == k then (k, v) else p)
  else
    m ++ [(k, v)]

/-- `Map.delete`: drop the entry with key `k`. -/
def mapDelete {α : Type} (m : List (String × α)) (k : String) : List (String × α) :=
  m.filter (fun p => p.1 != k)

/-- An editor node: `{ id, type, name, position, config, status }`
(built in `addNode`; `config` is a field-name-to-value object). -/
structure Node where
  id : String
  type : String
  name : String
  position : Pos
  config : List (String × String)
  status : String
deriving DecidableEq

/-- A connection: `{ id, source, sourceHandle, target, targetHandle }`
(built in `addConnection`). -/
structure Connection where
  id : String
  source : String
  sourceHandle : String
  target : String
  targetHandle : String
deriving DecidableEq

/-- A node as serialized by `getWorkflowData` (the `status` field is
dropped). -/
structure SavedNode where
  id : String
  type : String
  name : String
  position : Pos
  config : List (String × String)
deriving DecidableEq

/-- A workflow definition: the serialized node and connection lists. -/
structure WfDefinition where
  nodes : List SavedNode
  connections : List Connection
deriving DecidableEq

/-- The workflow object (`this.workflow`): either built locally by
`updateWorkflowProperty` (no id, no status) or the object returned by the
server on save (carrying an `id`). -/
structure Workflow where
  id : Option Nat
  name : String
  description : String
  definition : WfDefinition
  status : Option String
deriving DecidableEq

/-- The workflow properties written through `updateWorkflowProperty`: the
two change listeners in `setupEventListeners` pass `'name'` and
`'description'`. -/
inductive WorkflowProp where
  | name
  | description
deriving DecidableEq

/-- `this.workflow[property] = value` for the two properties used. -/
def setWorkflowProp (w : Workflow) : WorkflowProp → String → Workflow
  | .name, v => { w with name := v }
  | .description, v => { w with description := v }

/-- A palette node type (only the fields the modelled operations read). -/
structure NodeType where
  name : String
  display_name : String
  category : String
deriving DecidableEq

/-- `this.canvas.connectionStart`: the node and handle a connection drag
started from. -/
structure ConnStart where
  nodeId : String
  handle : String
deriving DecidableEq

/-- `this.canvas.dragStart`: last mouse position and the dragged node. -/
structure DragStart where
  x : ℚ
  y : ℚ
  nodeId : String
deriving DecidableEq

/-- The canvas interaction state (`this.canvas`). -/
structure CanvasState where
  scale : ℚ
  offsetX : ℚ
  offsetY : ℚ
  isDragging : Bool
  isConnecting : Bool
  connectionStart : Option ConnStart
  dragStart : Option DragStart
deriving DecidableEq

/-- The constructor options (`this.options`). -/
structure EditorOptions where
  workflowId : Option Nat
  csrfToken : Option String
  apiBaseUrl : String
  autoSave : Bool
deriving DecidableEq

/-- The editor state: graph collections, workflow object, selection and
flags. -/
structure EditorState where
  options : EditorOptions
  workflow : Option Workflow
  nodes : List (String × Node)
  connections : List (String × Connection)
  selectedNode : Option String
  selectedConnection : Option String
  isDirty : Bool
  isLoading : Bool
  canvas : CanvasState
deriving DecidableEq

/-- The DOM inputs the modelled actions read: the CSRF meta tag content
and the workflow name/description form fields (each `none` when the
element or attribute is absent). -/
structure Page where
  csrfMeta : Option String
  workflowNameField : Option String
  workflowDescriptionField : Option String
deriving DecidableEq

/-- A notification shown by `showNotification(message, type)`. -/
structure Notification where
  message : String
  type : String
deriving DecidableEq

/-- The body `getWorkflowData` serializes for a save request. -/
structure WorkflowData where
  name : String
  description : String
  definition : WfDefinition
deriving DecidableEq

/-- The body attached to a modelled `fetch` request. -/
inductive RequestBody where
  | noBody
  | workflowBody (d : WorkflowData)
  | testInputBody
deriving DecidableEq

/-- A modelled `fetch` request. -/
structure HttpRequest where
  url : String
  method : String
  headers : List (String × String)
  body : RequestBody
deriving DecidableEq

/-- The outcome of `fetch` + `response.json()` for `saveWorkflow`:
the fetch can throw (network error), the body can fail to parse as JSON,
or parsing yields `response.ok` and a result object. -/
inductive FetchOutcome where
  | fetchFail
  | jsonFail
  | jsonOk (ok : Bool) (result : Workflow)
deriving DecidableEq

/-- The outcomes that make `saveWorkflow`'s `try` block throw. -/
def isSaveFailure : FetchOutcome → Bool
  | .fetchFail => true
  | .jsonFail => true
  | .jsonOk ok _ => !ok

/-- The outcome of `fetch` + `response.json()` for `testWorkflow` and
`deployWorkflow` (their parsed results only feed the DOM). -/
inductive ActionOutcome where
  | fetchFail
  | jsonFail
  | responseOk
  | responseErr
deriving DecidableEq

/-- `getCsrfToken()`: the content of `meta[name="csrf-token"]`, or `''`
when the tag or attribute is missing (`?.getAttribute(...) || ''`). -/
def getCsrfToken (page : Page) : String :=
  jsOrDefault page.csrfMeta ""

/-- `markDirty()`: set the dirty flag (the save-button styling is DOM
only). -/
def markDirty (st : EditorState) : EditorState :=
  { st with isDirty := true }

/-- `addNode(nodeType, position)`: insert a fresh node (id produced by
`generateId`, passed here as `nodeId`) and mark dirty; returns the new
id. -/
def addNode (st : EditorState) (nodeType : NodeType) (position : Pos)
    (nodeId : String) : EditorState × String :=
  let node : Node :=
    { id := nodeId, type := nodeType.name, name := nodeType.display_name
      position := position, config := [], status := "pending" }
  (markDirty { st with nodes := mapSet st.nodes nodeId node }, nodeId)

/-- `addConnection(sourceNodeId, sourceHandle, targetNodeId, targetHandle)`:
insert a fresh connection (id from `generateId`, passed as
`connectionId`) and mark dirty. -/
def addConnection (st : EditorState) (sourceNodeId sourceHandle targetNodeId
    targetHandle connectionId : String) : EditorState :=
  let connection : Connection :=
    { id := connectionId, source := sourceNodeId, sourceHandle := sourceHandle
      target := targetNodeId, targetHandle := targetHandle }
  markDirty { st with connections := mapSet st.connections connectionId connection }

/-- `deleteConnection(connectionId)`: drop the connection from the map
(and its SVG path from the DOM) and mark dirty. -/
def deleteConnection (st : EditorState) (connectionId : String) : EditorState :=
  markDirty { st with connections := mapDelete st.connections connectionId }

/-- `deleteNode(nodeId)`: collect the ids of all connections whose source
or target is the node, delete each through `deleteConnection`, remove the
node from the map, clear the selection and mark dirty. -/
def deleteNode (st : EditorState) (nodeId : String) : EditorState :=
  let connectionsToRemove :=
    (st.connections.filter
      (fun p => p.2.source == nodeId || p.2.target == nodeId)).map (fun p => p.1)
  let st1 := connectionsToRemove.foldl deleteConnection st
  markDirty { st1 with nodes := mapDelete st1.nodes nodeId, selectedNode := none }

/-- `updateNodeProperty(nodeId, property, value)`: no-op when the node is
missing; `'name'` writes the display name, anything else writes the
config map; then mark dirty. -/
def updateNodeProperty (st : EditorState) (nodeId property value : String) :
    EditorState :=
  match mapGet st.nodes nodeId with
  | none => st
  | some node =>
    let node' :=
      if property = "name" then { node with name := value }
      else { node with config := mapSet node.config property value }
    markDirty { st with nodes := mapSet st.nodes nodeId node' }

/-- The workflow object `updateWorkflowProperty` builds when
`this.workflow` is null. -/
def defaultWorkflow : Workflow :=
  { id := none, name := "Untitled Workflow", description := ""
    definition := { nodes := [], connections := [] }, status := none }

/-- `updateWorkflowProperty(property, value)`: create the default
workflow object if none exists, assign the property, mark dirty. -/
def updateWorkflowProperty (st : EditorState) (property : WorkflowProp)
    (value : String) : EditorState :=
  let w := match st.workflow with
    | none => defaultWorkflow
    | some w => w
  markDirty { st with workflow := some (setWorkflowProp w property value) }

/-- `onNodeDragEnd(e)`: stop dragging and mark dirty. -/
def onNodeDragEnd (st : EditorState) : EditorState :=
  markDirty { st with canvas := { st.canvas with isDragging := false, dragStart := none } }

/-- `startConnection(e, nodeId, handle, isOutput)`: only output handles
start a connection; record the start node and handle. -/
def startConnection (st : EditorState) (nodeId handle : String)
    (isOutput : Bool) : EditorState :=
  if !isOutput then st
  else
    { st with canvas :=
      { st.canvas with isConnecting := true
                       connectionStart := some { nodeId := nodeId, handle := handle } } }

/-- The mouse-event target of `onConnectionEnd`, as read from the DOM:
whether it is a `.node-handle`, whether it is an `.input` handle, the
enclosing node's `data-node-id` and its `data-handle`. -/
structure EventTarget where
  isNodeHandle : Bool
  isInput : Bool
  nodeId : String
  handle : String
deriving DecidableEq

/-- `onConnectionEnd(e)`: if connecting and the release target is an
input handle on a different node than the drag started from, add the
connection; then clear the connecting state.  Returns `none` on the path
where the JS would throw (reading `connectionStart.nodeId` when
`connectionStart` is null). -/
def onConnectionEnd (st : EditorState) (target : Option EventTarget)
    (newConnectionId : String) : Option EditorState :=
  if !st.canvas.isConnecting then some st
  else
    let afterAdd : Option EditorState :=
      match target with
      | none => some st
      | some t =>
        if t.isNodeHandle && t.isInput then
          match st.canvas.connectionStart with
          | none => none
          | some cs =>
            if t.nodeId != cs.nodeId then
              some (addConnection st cs.nodeId cs.handle t.nodeId t.handle newConnectionId)
            else some st
        else some st
    afterAdd.map (fun s =>
      { s with canvas := { s.canvas with isConnecting := false, connectionStart := none } })

/-- `createConnectionPath(start, end)`: the cubic-bezier SVG path from
the source handle to the target handle, with control points offset
horizontally by `max(50, |dx| * 0.5)`. -/
def createConnectionPath (start endPos : Pos) : String :=
  let dx := endPos.x - start.x
  let controlOffset := max 50 (|dx| * (1 / 2))
  "M " ++ ratStr start.x ++ " " ++ ratStr start.y ++ " C "
    ++ ratStr (start.x + controlOffset) ++ " " ++ ratStr start.y ++ ", "
    ++ ratStr (endPos.x - controlOffset) ++ " " ++ ratStr endPos.y ++ ", "
    ++ ratStr endPos.x ++ " " ++ ratStr endPos.y

/-- `getWorkflowData()`: the save body, read from the name/description
form fields (with `|| 'Untitled Workflow'` and `|| ''` fallbacks) and the
serialized node and connection maps. -/
def getWorkflowData (st : EditorState) (page : Page) : WorkflowData :=
  { name := jsOrDefault page.workflowNameField "Untitled Workflow"
    description := jsOrDefault page.workflowDescriptionField ""
    definition :=
      { nodes := st.nodes.map (fun p =>
          { id := p.2.id, type := p.2.type, name := p.2.name
            position := p.2.position, config := p.2.config })
        connections := st.connections.map (fun p => p.2) } }

/-- The observable result of one `saveWorkflow` run: the final editor
state, the request issued (if any), the notifications shown, and the URL
passed to `history.replaceState` (if that branch ran). -/
structure SaveRun where
  state : EditorState
  request : Option HttpRequest
  notifs : List Notification
  urlRewrite : Option String
deriving DecidableEq

/-- `saveWorkflow()`: bail out while a save is in flight; otherwise set
the busy flag, POST to `/api/workflows/` (no id) or PUT to
`/api/workflows/<id>/` (id set) with the CSRF header; on an OK JSON
response store the result, record its id, clear the dirty flag and
notify success (then the dead `!workflowId` URL-rewrite check); any
throw is caught and shown as an error notification; `finally` clears the
busy flag. -/
def saveWorkflow (st : EditorState) (page : Page) (outcome : FetchOutcome) :
    SaveRun :=
  if st.isLoading then { state := st, request := none, notifs := [], urlRewrite := none }
  else
    let st1 := { st with isLoading := true }
    let workflowData := getWorkflowData st page
    let url :=
      if jsTruthy st1.options.workflowId then
        "/api/workflows/" ++ idInterp st1.options.workflowId ++ "/"
      else "/api/workflows/"
    let method := if jsTruthy st1.options.workflowId then "PUT" else "POST"
    let req : HttpRequest :=
      { url := url, method := method
        headers := [("Content-Type", "application/json"),
                    ("X-CSRFToken", getCsrfToken page)]
        body := .workflowBody workflowData }
    match outcome with
    | .fetchFail =>
      { state := { st1 with isLoading := false }, request := some req
        notifs := [{ message := "Failed to save workflow", type := "error" }]
        urlRewrite := none }
    | .jsonFail =>
      { state := { st1 with isLoading := false }, request := some req
        notifs := [{ message := "Failed to save workflow", type := "error" }]
        urlRewrite := none }
    | .jsonOk ok result =>
      if ok then
        let st2 := { st1 with workflow := some result
                              options := { st1.options with workflowId := result.id }
                              isDirty := false }
        let rewrite :=
          if !jsTruthy st2.options.workflowId then
            some ("/workflows/" ++ idInterp result.id ++ "/edit/")
          else none
        { state := { st2 with isLoading := false }, request := some req
          notifs := [{ message := "Workflow saved successfully", type := "success" }]
          urlRewrite := rewrite }
      else
        { state := { st1 with isLoading := false }, request := some req
          notifs := [{ message := "Failed to save workflow", type := "error" }]
          urlRewrite := none }

/-- The observable result of one `testWorkflow` or `deployWorkflow` run. -/
structure ActionRun where
  state : EditorState
  request : Option HttpRequest
  notifs : List Notification
deriving DecidableEq

/-- `testWorkflow()`: warn and return when no workflow id is set;
otherwise POST to `/api/workflows/<id>/test/`; the parsed results feed
only the DOM, failures are caught and shown as an error notification. -/
def testWorkflow (st : EditorState) (page : Page) (outcome : ActionOutcome) :
    ActionRun :=
  if !jsTruthy st.options.workflowId then
    { state := st, request := none
      notifs := [{ message := "Please save the workflow first", type := "warning" }] }
  else
    let req : HttpRequest :=
      { url := "/api/workflows/" ++ idInterp st.options.workflowId ++ "/test/"
        method := "POST"
        headers := [("Content-Type", "application/json"),
                    ("X-CSRFToken", getCsrfToken page)]
        body := .testInputBody }
    match outcome with
    | .responseOk =>
      { state := st, request := some req
        notifs := [{ message := "Workflow test completed", type := "success" }] }
    | _ =>
      { state := st, request := some req
        notifs := [{ message := "Workflow test failed", type := "error" }] }

/-- `deployWorkflow()`: warn and return when no workflow id is set; then
ask for confirmation; on yes, POST to `/api/workflows/<id>/activate/`;
on an OK response set `workflow.status = 'active'` (throwing — caught —
when `this.workflow` is null); failures surface as an error
notification. -/
def deployWorkflow (st : EditorState) (page : Page) (confirmed : Bool)
    (outcome : ActionOutcome) : ActionRun :=
  if !jsTruthy st.options.workflowId then
    { state := st, request := none
      notifs := [{ message := "Please save the workflow first", type := "warning" }] }
  else if !confirmed then
    { state := st, request := none, notifs := [] }
  else
    let req : HttpRequest :=
      { url := "/api/workflows/" ++ idInterp st.options.workflowId ++ "/activate/"
        method := "POST"
        headers := [("X-CSRFToken", getCsrfToken page)]
        body := .noBody }
    match outcome with
    | .responseOk =>
      match st.workflow with
      | none =>
        { state := st, request := some req
          notifs := [{ message := "Failed to deploy workflow", type := "error" }] }
      | some w =>
        { state := { st with workflow := some { w with status := some "active" } }
          request := some req
          notifs := [{ message := "Workflow deployed successfully", type := "success" }] }
    | _ =>
      { state := st, request := some req
        notifs := [{ message := "Failed to deploy workflow", type := "error" }] }

/-! ### Helper lemmas about the map embedding -/

/-- Every entry of `mapSet m k v` is an entry of `m` or the new pair. -/
theorem mem_mapSet {α : Type} {m : List (String × α)} {k : String} {v : α}
    {p : String × α} (hp : p ∈ mapSet m k v) : p ∈ m ∨ p = (k, v) := by
  unfold mapSet at hp
  split at hp
  · rcases List.mem_map.mp hp with ⟨q, hq, hqp⟩
    by_cases hk : (q.1 == k) = true
    · right
      simp only [hk, if_true] at hqp
      exact hqp.symm
    · left
      simp only [hk, if_false] at hqp
      exact hqp ▸ hq
  · rcases List.mem_append.mp hp with h | h
    · exact Or.inl h
    · right; simpa using h

/-- Folding `deleteConnection` over a list of ids only touches the
connection map and the dirty flag; the node map is untouched. -/
theorem foldl_deleteConnection_nodes (ids : List String) (st : EditorState) :
    (ids.foldl deleteConnection st).nodes = st.nodes := by
  induction ids generalizing st with
  | nil => rfl
  | cons a ids ih => simpa using ih (deleteConnection st a)

/-- Folding `deleteConnection` acts on the connection map as folding
`mapDelete`. -/
theorem foldl_deleteConnection_connections (ids : List String) (st : EditorState) :
    (ids.foldl deleteConnection st).connections =
      ids.foldl mapDelete st.connections := by
  induction ids generalizing st with
  | nil => rfl
  | cons a ids ih => simpa using ih (deleteConnection st a)

/-- Folding `mapDelete` over a list of keys keeps exactly the entries
whose key is not in the list. -/
theorem foldl_mapDelete_eq_filter {α : Type} (ids : List String)
    (m : List (String × α)) :
    ids.foldl mapDelete m = m.filter (fun p => !ids.contains p.1) := by
  induction ids generalizing m with
  | nil => simp
  | cons a ids ih =>
    rw [List.foldl_cons, ih, mapDelete, List.filter_filter]
    apply List.filter_congr
    intro p _
    by_cases h1 : p.1 = a <;> by_cases h2 : p.1 ∈ ids <;>
      simp [List.contains_cons, Bool.and_comm, bne, beq_eq_decide, h1, h2]

/-- With pairwise-distinct keys (a `Map` invariant), two entries with the
same key are the same entry. -/
theorem eq_of_nodup_keys {α : Type} {m : List (String × α)}
    (h : (m.map Prod.fst).Nodup) {p q : String × α}
    (hp : p ∈ m) (hq : q ∈ m) (hk : p.1 = q.1) : p = q :=
  List.inj_on_of_nodup_map h hp hq hk

/-! ### Concrete example states (used by the witnesses) -/

/-- A small concrete node. -/
def exNode (i : String) : Node :=
  { id := i, type := "log", name := "Log Message", position := { x := 0, y := 0 }
    config := [], status := "pending" }

/-- A small concrete connection. -/
def exConn (i s t : String) : Connection :=
  { id := i, source := s, sourceHandle := "output", target := t, targetHandle := "input" }

/-- The initial canvas state from the constructor. -/
def exCanvas : CanvasState :=
  { scale := 1, offsetX := 0, offsetY := 0, isDragging := false
    isConnecting := false, connectionStart := none, dragStart := none }

/-- Constructor options with no workflow id. -/
def exOptions : EditorOptions :=
  { workflowId := none, csrfToken := none, apiBaseUrl := "/api/workflows/", autoSave := true }

/-- A concrete editor state: three nodes, a chain of two connections. -/
def exState : EditorState :=
  { options := exOptions, workflow := none
    nodes := [("n1", exNode "n1"), ("n2", exNode "n2"), ("n3", exNode "n3")]
    connections := [("c1", exConn "c1" "n1" "n2"), ("c2", exConn "c2" "n2" "n3")]
    selectedNode := none, selectedConnection := none
    isDirty := false, isLoading := false, canvas := exCanvas }

/-- `exState` while a save is in flight. -/
def exLoadingState : EditorState :=
  { exState with isLoading := true }

/-- `exState` with a saved workflow id. -/
def exSavedState : EditorState :=
  { exState with options := { exOptions with workflowId := some 7 } }

/-- A concrete page: CSRF meta tag present, name field filled in. -/
def exPage : Page :=
  { csrfMeta := some "tok123", workflowNameField := some "My Flow"
    workflowDescriptionField := none }

/-- A concrete server response body for a successful save. -/
def exResult : Workflow :=
  { id := some 7, name := "My Flow", description := ""
    definition := { nodes := [], connections := [] }, status := some "draft" }

/-! ### Claim theorems -/

/-- Claim C1: for every node id `n`, `deleteNode n` removes `n` from the
node collection and deletes every connection whose source or target
equals `n`; afterwards no connection references `n`, and connections
between two other nodes are left unchanged (the connection map keeps
them, in order).  The hypothesis that connection keys are pairwise
distinct is the `Map` representation invariant. -/
theorem claim1_deleteNode_cascades (st : EditorState) (nodeId : String)
    (hnd : (st.connections.map Prod.fst).Nodup) :
    mapGet (deleteNode st nodeId).nodes nodeId = none ∧
    (deleteNode st nodeId).nodes = mapDelete st.nodes nodeId ∧
    (deleteNode st nodeId).connections =
      st.connections.filter
        (fun p => !(p.2.source == nodeId || p.2.target == nodeId)) ∧
    (∀ p ∈ (deleteNode st nodeId).connections,
      p.2.source ≠ nodeId ∧ p.2.target ≠ nodeId) ∧
    (∀ p ∈ st.connections, p.2.source ≠ nodeId → p.2.target ≠ nodeId →
      p ∈ (deleteNode st nodeId).connections) := by
  have hconn : (deleteNode st nodeId).connections =
      st.connections.filter
        (fun p => !(p.2.source == nodeId || p.2.target == nodeId)) := by
    have hc0 : (deleteNode st nodeId).connections =
        st.connections.filter (fun p =>
          !(((st.connections.filter
              (fun q => q.2.source == nodeId || q.2.target == nodeId)).map
                Prod.fst).contains p.1)) := by
      simp [deleteNode, markDirty, foldl_deleteConnection_connections,
        foldl_mapDelete_eq_filter]
    rw [hc0]
    apply List.filter_congr
    intro p hp
    congr 1
    by_cases hi : (p.2.source == nodeId || p.2.target == nodeId) = true
    · rw [hi]
      exact List.elem_iff.mpr
        (List.mem_map.mpr ⟨p, List.mem_filter.mpr ⟨hp, hi⟩, rfl⟩)
    · rw [Bool.not_eq_true] at hi
      rw [hi]
      rw [Bool.eq_false_iff]
      intro hcontains
      rcases List.mem_map.mp (List.elem_iff.mp hcontains) with ⟨q, hq, hqk⟩
      have hq' := List.mem_filter.mp hq
      have : q = p := eq_of_nodup_keys hnd hq'.1 hp hqk
      rw [this] at hq'
      rw [hq'.2] at hi
      exact Bool.true_eq_false.mp hi
  have hnodes : (deleteNode st nodeId).nodes = mapDelete st.nodes nodeId := by
    simp [deleteNode, markDirty, foldl_deleteConnection_nodes]
  refine ⟨?_, hnodes, hconn, ?_, ?_⟩
  · rw [hnodes]
    unfold mapGet mapDelete
    rw [List.find?_filter]
    simp
  · intro p hp
    rw [hconn] at hp
    have := (List.mem_filter.mp hp).2
    simp only [Bool.not_eq_true', Bool.or_eq_false_iff, beq_eq_false_iff_ne] at this
    exact this
  · intro p hp hs ht
    rw [hconn]
    refine List.mem_filter.mpr ⟨hp, ?_⟩
    simp [hs, ht]

/-- Witness for C1: deleting node `n2` of the concrete state removes it
and both incident connections. -/
theorem claim1_witness :
    (exState.connections.map Prod.fst).Nodup ∧
    (mapGet (deleteNode exState "n2").nodes "n2" = none ∧
     (deleteNode exState "n2").nodes = mapDelete exState.nodes "n2" ∧
     (deleteNode exState "n2").connections =
       exState.connections.filter
         (fun p => !(p.2.source == "n2" || p.2.target == "n2")) ∧
     (∀ p ∈ (deleteNode exState "n2").connections,
       p.2.source ≠ "n2" ∧ p.2.target ≠ "n2") ∧
     (∀ p ∈ exState.connections, p.2.source ≠ "n2" → p.2.target ≠ "n2" →
       p ∈ (deleteNode exState "n2").connections)) :=
  ⟨by decide, claim1_deleteNode_cascades exState "n2" (by decide)⟩

/-- Claim C2: a failed save (network error, non-JSON body, non-OK
response) is caught inside `saveWorkflow` and surfaced only as a single
transient error notification; the editor state is unchanged — in
particular nodes, connections, workflow, `options.workflowId` and
`isDirty` — and `isLoading` is back to `false`; no URL rewrite happens. -/
theorem claim2_save_failure_preserves_state (st : EditorState) (page : Page)
    (outcome : FetchOutcome) (hload : st.isLoading = false)
    (hfail : isSaveFailure outcome = true) :
    (saveWorkflow st page outcome).state = st ∧
    (saveWorkflow st page outcome).notifs =
      [{ message := "Failed to save workflow", type := "error" }] ∧
    (saveWorkflow st page outcome).urlRewrite = none ∧
    (saveWorkflow st page outcome).state.isLoading = false := by
  obtain ⟨o, w, ns, cs, sn, sc, d, l, cv⟩ := st
  simp only [] at hload
  subst hload
  cases outcome with
  | fetchFail => simp [saveWorkflow]
  | jsonFail => simp [saveWorkflow]
  | jsonOk ok result =>
    simp only [isSaveFailure, Bool.not_eq_true'] at hfail
    subst hfail
    simp [saveWorkflow]

/-- Witness for C2: a concrete non-OK response leaves the concrete state
untouched. -/
theorem claim2_witness :
    exState.isLoading = false ∧
    isSaveFailure (.jsonOk false exResult) = true ∧
    ((saveWorkflow exState exPage (.jsonOk false exResult)).state = exState ∧
     (saveWorkflow exState exPage (.jsonOk false exResult)).notifs =
       [{ message := "Failed to save workflow", type := "error" }] ∧
     (saveWorkflow exState exPage (.jsonOk false exResult)).urlRewrite = none ∧
     (saveWorkflow exState exPage (.jsonOk false exResult)).state.isLoading = false) :=
  ⟨rfl, rfl,
   claim2_save_failure_preserves_state exState exPage (.jsonOk false exResult) rfl rfl⟩

/-- Claim C3: while `isLoading` is true a further `saveWorkflow` call
returns immediately — no request, no notification, no state change — and
whenever a save actually runs (`isLoading` was false) it finishes with
`isLoading` false again, so this entry point never overlaps two
requests. -/
theorem claim3_busy_flag_guard (st : EditorState) (page : Page)
    (outcome : FetchOutcome) :
    (st.isLoading = true →
      saveWorkflow st page outcome =
        { state := st, request := none, notifs := [], urlRewrite := none }) ∧
    (st.isLoading = false →
      (saveWorkflow st page outcome).state.isLoading = false ∧
      (saveWorkflow st page outcome).request ≠ none) := by
  constructor
  · intro h
    simp [saveWorkflow, h]
  · intro h
    cases outcome with
    | fetchFail => simp [saveWorkflow, h]
    | jsonFail => simp [saveWorkflow, h]
    | jsonOk ok result =>
      cases ok <;> simp [saveWorkflow, h]

/-- Witness for C3: with the busy flag set the concrete call is a no-op;
with it clear a concrete run ends not-loading and issued a request. -/
theorem claim3_witness :
    (saveWorkflow exLoadingState exPage .fetchFail =
      { state := exLoadingState, request := none, notifs := [], urlRewrite := none }) ∧
    ((saveWorkflow exState exPage .fetchFail).state.isLoading = false ∧
     (saveWorkflow exState exPage .fetchFail).request ≠ none) :=
  ⟨(claim3_busy_flag_guard exLoadingState exPage .fetchFail).1 rfl,
   (claim3_busy_flag_guard exState exPage .fetchFail).2 rfl⟩

/-- Claim C4: `saveWorkflow` POSTs to `/api/workflows/` when
`options.workflowId` is unset and PUTs to `/api/workflows/<id>/` when it
is set, with the CSRF token from the page's meta tag in the `X-CSRFToken`
header; on an OK response it stores the returned workflow, records its id
in `options.workflowId` and clears `isDirty`. -/
theorem claim4_save_request_shape (st : EditorState) (page : Page)
    (result : Workflow) (hload : st.isLoading = false) :
    (st.options.workflowId = none →
      (saveWorkflow st page (.jsonOk true result)).request = some
        { url := "/api/workflows/", method := "POST"
          headers := [("Content-Type", "application/json"),
                      ("X-CSRFToken", getCsrfToken page)]
          body := .workflowBody (getWorkflowData st page) }) ∧
    (∀ n, st.options.workflowId = some n → n ≠ 0 →
      (saveWorkflow st page (.jsonOk true result)).request = some
        { url := "/api/workflows/" ++ toString n ++ "/", method := "PUT"
          headers := [("Content-Type", "application/json"),
                      ("X-CSRFToken", getCsrfToken page)]
          body := .workflowBody (getWorkflowData st page) }) ∧
    (saveWorkflow st page (.jsonOk true result)).state.workflow = some result ∧
    (saveWorkflow st page (.jsonOk true result)).state.options.workflowId = result.id ∧
    (saveWorkflow st page (.jsonOk true result)).state.isDirty = false := by
  refine ⟨?_, ?_, ?_, ?_, ?_⟩
  · intro h
    simp [saveWorkflow, hload, h, jsTruthy]
  · intro n h hn
    simp [saveWorkflow, hload, h, jsTruthy, hn, idInterp]
  · simp [saveWorkflow, hload]
  · simp [saveWorkflow, hload]
  · simp [saveWorkflow, hload]

/-- Witness for C4: a concrete new-workflow save POSTs with the concrete
CSRF token, and a concrete save with id 7 PUTs to its URL. -/
theorem claim4_witness :
    ((saveWorkflow exState exPage (.jsonOk true exResult)).request = some
      { url := "/api/workflows/", method := "POST"
        headers := [("Content-Type", "application/json"),
                    ("X-CSRFToken", getCsrfToken exPage)]
        body := .workflowBody (getWorkflowData exState exPage) }) ∧
    ((saveWorkflow exSavedState exPage (.jsonOk true exResult)).request = some
      { url := "/api/workflows/" ++ toString 7 ++ "/", method := "PUT"
        headers := [("Content-Type", "application/json"),
                    ("X-CSRFToken", getCsrfToken exPage)]
        body := .workflowBody (getWorkflowData exSavedState exPage) }) ∧
    (saveWorkflow exState exPage (.jsonOk true exResult)).state.isDirty = false :=
  ⟨(claim4_save_request_shape exState exPage exResult rfl).1 rfl,
   (claim4_save_request_shape exSavedState exPage exResult rfl).2.1 7 rfl (by decide),
   (claim4_save_request_shape exState exPage exResult rfl).2.2.2.2⟩

/-- Claim C5: `updateWorkflowProperty p v` with no workflow object first
creates one named "Untitled Workflow" with empty description and empty
definition, then sets `p` to `v` and marks the editor dirty; with an
existing workflow only property `p` changes (and the rest of the editor
state is untouched apart from the dirty flag). -/
theorem claim5_updateWorkflowProperty (st : EditorState) (p : WorkflowProp)
    (v : String) :
    (st.workflow = none →
      (updateWorkflowProperty st p v).workflow =
        some (setWorkflowProp defaultWorkflow p v)) ∧
    (defaultWorkflow.name = "Untitled Workflow" ∧
     defaultWorkflow.description = "" ∧
     defaultWorkflow.definition = { nodes := [], connections := [] }) ∧
    (∀ w, st.workflow = some w →
      (updateWorkflowProperty st p v).workflow = some (setWorkflowProp w p v)) ∧
    (∀ w, (p = .name → setWorkflowProp w p v = { w with name := v }) ∧
          (p = .description → setWorkflowProp w p v = { w with description := v })) ∧
    (updateWorkflowProperty st p v).isDirty = true ∧
    (updateWorkflowProperty st p v).nodes = st.nodes ∧
    (updateWorkflowProperty st p v).connections = st.connections ∧
    (updateWorkflowProperty st p v).options = st.options := by
  refine ⟨?_, ⟨rfl, rfl, rfl⟩, ?_, ?_, ?_, ?_, ?_, ?_⟩
  · intro h
    simp [updateWorkflowProperty, markDirty, h]
  · intro w h
    simp [updateWorkflowProperty, markDirty, h]
  · intro w
    constructor <;> (intro h; subst h; rfl)
  · simp [updateWorkflowProperty, markDirty]
  · simp [updateWorkflowProperty, markDirty]
  · simp [updateWorkflowProperty, markDirty]
  · simp [updateWorkflowProperty, markDirty]

/-- Witness for C5: a first name edit on the concrete state creates the
default workflow and renames it; the editor is dirty afterwards. -/
theorem claim5_witness :
    ((updateWorkflowProperty exState .name "Mine").workflow =
      some (setWorkflowProp defaultWorkflow .name "Mine")) ∧
    (updateWorkflowProperty exState .name "Mine").isDirty = true :=
  ⟨(claim5_updateWorkflowProperty exState .name "Mine").1 rfl,
   (claim5_updateWorkflowProperty exState .name "Mine").2.2.2.2.1⟩

/-- Claim C6: with `options.workflowId` unset, `testWorkflow` and
`deployWorkflow` issue no request and change no state beyond the
"Please save the workflow first" warning; and whenever either does issue
a request the id was set (non-zero) and appears in the `/test/` resp.
`/activate/` URL. -/
theorem claim6_unsaved_guard (st : EditorState) (page : Page)
    (outcome : ActionOutcome) (confirmed : Bool)
    (h : st.options.workflowId = none) :
    testWorkflow st page outcome =
      { state := st, request := none
        notifs := [{ message := "Please save the workflow first", type := "warning" }] } ∧
    deployWorkflow st page confirmed outcome =
      { state := st, request := none
        notifs := [{ message := "Please save the workflow first", type := "warning" }] } ∧
    (∀ st' req, (testWorkflow st' page outcome).request = some req →
      ∃ n, st'.options.workflowId = some n ∧ n ≠ 0 ∧
        req.url = "/api/workflows/" ++ toString n ++ "/test/") ∧
    (∀ st' req, (deployWorkflow st' page confirmed outcome).request = some req →
      ∃ n, st'.options.workflowId = some n ∧ n ≠ 0 ∧
        req.url = "/api/workflows/" ++ toString n ++ "/activate/") := by
  refine ⟨?_, ?_, ?_, ?_⟩
  · simp [testWorkflow, h, jsTruthy]
  · simp [deployWorkflow, h, jsTruthy]
  · intro st' req hreq
    match hw : st'.options.workflowId with
    | none =>
      rw [testWorkflow, hw] at hreq
      simp [jsTruthy] at hreq
    | some n =>
      by_cases hn : n = 0
      · subst hn
        rw [testWorkflow, hw] at hreq
        simp [jsTruthy] at hreq
      · refine ⟨n, rfl, hn, ?_⟩
        rw [testWorkflow, hw] at hreq
        simp only [jsTruthy, bne, beq_iff_eq] at hreq
        rw [if_neg (by simpa using hn)] at hreq
        cases outcome <;> simp_all [idInterp] <;> rw [← hreq]
  · intro st' req hreq
    match hw : st'.options.workflowId with
    | none =>
      rw [deployWorkflow, hw] at hreq
      simp [jsTruthy] at hreq
    | some n =>
      by_cases hn : n = 0
      · subst hn
        rw [deployWorkflow, hw] at hreq
        simp [jsTruthy] at hreq
      · refine ⟨n, rfl, hn, ?_⟩
        rw [deployWorkflow, hw] at hreq
        simp only [jsTruthy, bne, beq_iff_eq] at hreq
        rw [if_neg (by simpa using hn)] at hreq
        cases confirmed with
        | false => simp at hreq
        | true =>
          cases outcome <;> (try cases hst : st'.workflow) <;>
            simp_all [idInterp] <;> rw [← hreq]

/-- Witness for C6: on the concrete unsaved state both actions only warn,
and on the concrete saved state the test request targets id 7. -/
theorem claim6_witness :
    (testWorkflow exState exPage .responseOk =
      { state := exState, request := none
        notifs := [{ message := "Please save the workflow first", type := "warning" }] }) ∧
    (deployWorkflow exState exPage true .responseOk =
      { state := exState, request := none
        notifs := [{ message := "Please save the workflow first", type := "warning" }] }) ∧
    (∃ n, exSavedState.options.workflowId = some n ∧ n ≠ 0 ∧
      ({ url := "/api/workflows/" ++ toString 7 ++ "/test/", method := "POST"
         headers := [("Content-Type", "application/json"),
                     ("X-CSRFToken", getCsrfToken exPage)]
         body := RequestBody.testInputBody } : HttpRequest).url =
        "/api/workflows/" ++ toString n ++ "/test/") :=
  ⟨(claim6_unsaved_guard exState exPage .responseOk true rfl).1,
   (claim6_unsaved_guard exState exPage .responseOk true rfl).2.1,
   (claim6_unsaved_guard exState exPage .responseOk true rfl).2.2.1 exSavedState
     { url := "/api/workflows/" ++ toString 7 ++ "/test/", method := "POST"
       headers := [("Content-Type", "application/json"),
                   ("X-CSRFToken", getCsrfToken exPage)]
       body := RequestBody.testInputBody }
     (by decide)⟩

/-- Claim C7: the interactive drag flow only builds output-to-input,
non-self-loop connections: `startConnection` ignores non-output handles,
and every connection `onConnectionEnd` adds goes from the recorded start
node to an input handle on a different node. -/
theorem claim7_connection_drag_flow (st : EditorState) :
    (∀ nodeId handle, startConnection st nodeId handle false = st) ∧
    (∀ target newId st', onConnectionEnd st target newId = some st' →
      ∀ p ∈ st'.connections, p ∈ st.connections ∨
        ∃ cs t, st.canvas.connectionStart = some cs ∧ target = some t ∧
          t.isNodeHandle = true ∧ t.isInput = true ∧
          p = (newId, { id := newId, source := cs.nodeId, sourceHandle := cs.handle
                        target := t.nodeId, targetHandle := t.handle }) ∧
          cs.nodeId ≠ t.nodeId) := by
  constructor
  · intro nodeId handle
    simp [startConnection]
  · intro target newId st' hrun p hp
    by_cases hcg : st.canvas.isConnecting = true
    case neg =>
      simp [onConnectionEnd, hcg] at hrun
      subst hrun
      exact Or.inl hp
    case pos =>
      cases htg : target with
      | none =>
        subst htg
        simp [onConnectionEnd, hcg] at hrun
        subst hrun
        exact Or.inl hp
      | some t =>
        subst htg
        by_cases hth : (t.isNodeHandle && t.isInput) = true
        · cases hcs : st.canvas.connectionStart with
          | none =>
            simp [onConnectionEnd, hcg, hth, hcs] at hrun
          | some cs =>
            by_cases hne : (t.nodeId != cs.nodeId) = true
            · simp [onConnectionEnd, hcg, hth, hcs, hne] at hrun
              subst hrun
              have hp' : p ∈ mapSet st.connections newId
                  { id := newId, source := cs.nodeId, sourceHandle := cs.handle
                    target := t.nodeId, targetHandle := t.handle } := hp
              rcases mem_mapSet hp' with hmem | hnew
              · exact Or.inl hmem
              · rw [Bool.and_eq_true] at hth
                refine Or.inr ⟨cs, t, rfl, rfl, hth.1, hth.2, hnew, ?_⟩
                exact fun hcontra => bne_iff_ne.mp hne hcontra.symm
            · simp [onConnectionEnd, hcg, hth, hcs, hne] at hrun
              subst hrun
              exact Or.inl hp
        · simp [onConnectionEnd, hcg, hth] at hrun
          subst hrun
          exact Or.inl hp

/-- `exState` while a connection drag from node n1's output handle is in
progress. -/
def exConnectingState : EditorState :=
  { exState with canvas :=
    { exCanvas with isConnecting := true
                    connectionStart := some { nodeId := "n1", handle := "output" } } }

/-- A concrete release target: the input handle of node n2. -/
def exTarget : EventTarget :=
  { isNodeHandle := true, isInput := true, nodeId := "n2", handle := "input" }

/-- The state after releasing that drag on n2's input handle. -/
def exConnEndState : EditorState :=
  let s := addConnection exConnectingState "n1" "output" "n2" "input" "c9"
  { s with canvas := { s.canvas with isConnecting := false, connectionStart := none } }

/-- Witness for C7: the concrete drag flow from n1's output to n2's input
adds only the n1-to-n2 connection, and a non-output mouse-down is
ignored. -/
theorem claim7_witness :
    (startConnection exState "n1" "input" false = exState) ∧
    (onConnectionEnd exConnectingState (some exTarget) "c9" = some exConnEndState) ∧
    (∀ p ∈ exConnEndState.connections, p ∈ exConnectingState.connections ∨
      ∃ cs t, exConnectingState.canvas.connectionStart = some cs ∧
        some exTarget = some t ∧
        t.isNodeHandle = true ∧ t.isInput = true ∧
        p = ("c9", { id := "c9", source := cs.nodeId, sourceHandle := cs.handle
                     target := t.nodeId, targetHandle := t.handle }) ∧
        cs.nodeId ≠ t.nodeId) :=
  ⟨(claim7_connection_drag_flow exState).1 "n1" "input",
   by decide,
   (claim7_connection_drag_flow exConnectingState).2 (some exTarget) "c9"
     exConnEndState (by decide)⟩

/-- Claim C8: `createConnectionPath start end` is exactly the cubic
bezier string `M start.x start.y C (start.x+c) start.y, (end.x-c) end.y,
end.x end.y` with `c = max(50, 0.5 * |end.x - start.x|)`, and the control
offset `c` is never below 50. -/
theorem claim8_createConnectionPath (start endPos : Pos) :
    createConnectionPath start endPos =
      "M " ++ ratStr start.x ++ " " ++ ratStr start.y ++ " C "
        ++ ratStr (start.x + max 50 ((1 / 2) * |endPos.x - start.x|)) ++ " "
        ++ ratStr start.y ++ ", "
        ++ ratStr (endPos.x - max 50 ((1 / 2) * |endPos.x - start.x|)) ++ " "
        ++ ratStr endPos.y ++ ", "
        ++ ratStr endPos.x ++ " " ++ ratStr endPos.y ∧
    (50 : ℚ) ≤ max 50 ((1 / 2) * |endPos.x - start.x|) := by
  constructor
  · rw [createConnectionPath]
    rw [mul_comm]
  · exact le_max_left _ _

/-- Claim C9: every mutating operation — `addNode`, `addConnection`,
`deleteNode`, `deleteConnection`, `updateNodeProperty` on an existing
node, `updateWorkflowProperty`, and the end of a node drag — sets
`isDirty`; only a save with an OK response clears it, and a failed save
leaves it untouched. -/
theorem claim9_dirty_discipline (st : EditorState) (page : Page) :
    (∀ nt pos nid, ((addNode st nt pos nid).1).isDirty = true) ∧
    (∀ s sh t th cid, (addConnection st s sh t th cid).isDirty = true) ∧
    (∀ nid, (deleteNode st nid).isDirty = true) ∧
    (∀ cid, (deleteConnection st cid).isDirty = true) ∧
    (∀ nid prop v node, mapGet st.nodes nid = some node →
      (updateNodeProperty st nid prop v).isDirty = true) ∧
    (∀ p v, (updateWorkflowProperty st p v).isDirty = true) ∧
    (onNodeDragEnd st).isDirty = true ∧
    (∀ result, st.isLoading = false →
      (saveWorkflow st page (.jsonOk true result)).state.isDirty = false) ∧
    (∀ outcome, st.isLoading = false → isSaveFailure outcome = true →
      (saveWorkflow st page outcome).state.isDirty = st.isDirty) := by
  refine ⟨?_, ?_, ?_, ?_, ?_, ?_, ?_, ?_, ?_⟩
  · intro nt pos nid; rfl
  · intro s sh t th cid; rfl
  · intro nid; rfl
  · intro cid; rfl
  · intro nid prop v node h
    simp [updateNodeProperty, h, markDirty]
  · intro p v; rfl
  · rfl
  · intro result h
    simp [saveWorkflow, h]
  · intro outcome h hfail
    cases outcome with
    | fetchFail => simp [saveWorkflow, h]
    | jsonFail => simp [saveWorkflow, h]
    | jsonOk ok result =>
      simp only [isSaveFailure, Bool.not_eq_true'] at hfail
      subst hfail
      simp [saveWorkflow, h]

/-- Witness for C9: concrete dirty-flag behaviour — a property edit on
an existing node dirties the state, a concrete OK save clears the flag,
and a concrete network failure leaves it as it was. -/
theorem claim9_witness :
    (mapGet exState.nodes "n1" = some (exNode "n1")) ∧
    (updateNodeProperty exState "n1" "name" "Renamed").isDirty = true ∧
    (saveWorkflow exState exPage (.jsonOk true exResult)).state.isDirty = false ∧
    (saveWorkflow exState exPage .fetchFail).state.isDirty = exState.isDirty :=
  ⟨by decide,
   (claim9_dirty_discipline exState exPage).2.2.2.2.1 "n1" "name" "Renamed"
     (exNode "n1") (by decide),
   (claim9_dirty_discipline exState exPage).2.2.2.2.2.2.2.1 exResult rfl,
   (claim9_dirty_discipline exState exPage).2.2.2.2.2.2.2.2 .fetchFail rfl rfl⟩

/-- Claim C10: on a successful save the server id is written to
`options.workflowId` before the `!workflowId` test, so whenever the
server returns a truthy id the guarded `history.replaceState` rewrite of
the URL never runs and `options.workflowId` ends up set. -/
theorem claim10_url_rewrite_dead (st : EditorState) (page : Page)
    (result : Workflow) (h : jsTruthy result.id = true) :
    (saveWorkflow st page (.jsonOk true result)).urlRewrite = none ∧
    (st.isLoading = false →
      (saveWorkflow st page (.jsonOk true result)).state.options.workflowId
        = result.id) := by
  constructor
  · by_cases hl : st.isLoading = true
    · simp [saveWorkflow, hl]
    · rw [Bool.not_eq_true] at hl
      simp [saveWorkflow, hl, h]
  · intro hl
    simp [saveWorkflow, hl]

/-- Witness for C10: the concrete successful save with server id 7 does
not rewrite the URL and stores the id. -/
theorem claim10_witness :
    jsTruthy exResult.id = true ∧
    ((saveWorkflow exState exPage (.jsonOk true exResult)).urlRewrite = none ∧
     (exState.isLoading = false →
       (saveWorkflow exState exPage (.jsonOk true exResult)).state.options.workflowId
         = exResult.id)) :=
  ⟨by decide, claim10_url_rewrite_dead exState exPage exResult (by decide)⟩
